import Mathlib

/-!
# Virtual-workspace endpoint discovery (`main.go`)

A shallow embedding of the three functions of `main.go` that carry logic:

* `GetRESTConfig`            (lines 118-129),
* `restConfigForAPIExport`   (lines 133-164),
* `NewVirtualWorkspaceClient` (lines 57-116), whose core is the bounded poll of
  lines 95-103.

Conventions of the embedding.

* A Go pointer `*rest.Config` is an `Option Config`; `none` is the nil pointer.
* A Go result pair `(value, error)` is a Lean pair of two `Option`s, so that
  "the value is nil whenever the error is not" is something to prove, not
  something the type grants.
* A run-time panic (nil dereference, index out of range) is the `Except.error`
  side of `Except Panic _`; a Go `error` value is ordinary data of type `Error`.
* Everything outside the repository (the ambient configuration lookup, scheme
  registration, client construction, the answers of the APIExport registry, and
  how many times the poller fires before its timeout) is a field of `World`.
-/

namespace KcpExample

/-! ## Data model -/

/-- Go `error` values that occur in `main.go`.  `fmt.Errorf` is kept symbolic:
the format string, the string arguments in order, and for a `%w` verb the
wrapped error. -/
inductive Error where
  /-- An API status error of the registry client, with its reason
  (`"NotFound"`, `"Forbidden"`, ...) and message. -/
  | status (reason : String) (message : String)
  /-- Any other error of an external call (transport, scheme, ambient config). -/
  | external (message : String)
  /-- Wait's `ErrWaitTimeout`, the only error `wait.PollImmediate` produces itself. -/
  | ErrWaitTimeout
  /-- Result of `fmt.Errorf(format, args...)` with no error among the arguments. -/
  | errorf (format : String) (args : List String)
  /-- Result of `fmt.Errorf(format, args..., err)` whose last verb, `%v`, prints
  `err` without wrapping it. -/
  | errorfV (format : String) (args : List String) (err : Error)
  /-- Result of `fmt.Errorf(format, args..., err)` whose last verb, `%w`, wraps `err`. -/
  | wrapf (format : String) (args : List String) (err : Error)
  deriving DecidableEq, Repr

/-- Go `errors.Unwrap`: only `%w`-built errors have an inner error. -/
def Error.Unwrap : Error → Option Error
  | .wrapf _ _ err => some err
  | _ => none

/-- The `apierrors.IsNotFound` test: walks the `%w` chain looking for a status
error whose reason is `NotFound`. -/
def Error.IsNotFound : Error → Bool
  | .status reason _ => reason == "NotFound"
  | .wrapf _ _ err => err.IsNotFound
  | _ => false

/-- Run-time panics the modelled code can raise. -/
inductive Panic where
  | nilPointerDereference
  | indexOutOfRange
  deriving DecidableEq, Repr

/-- The fields of `rest.Config` followed here.  `QPS` is a `float32` in Go; the
program only stores the literal `100` in it and copies it, so a rational value
stands for it. -/
structure Config where
  Host : String
  APIPath : String
  Username : String
  Password : String
  BearerToken : String
  BearerTokenFile : String
  UserAgent : String
  Insecure : Bool
  QPS : Rat
  Burst : Int
  Timeout : Int
  deriving DecidableEq

/-- One entry of `APIExport.Status.VirtualWorkspaces`. -/
structure VirtualWorkspace where
  URL : String
  deriving DecidableEq, Repr

/-- The `APIExportStatus` part read by the program. -/
structure APIExportStatus where
  VirtualWorkspaces : List VirtualWorkspace
  deriving DecidableEq, Repr

/-- The `apisv1alpha1.APIExport` part read by the program. -/
structure APIExport where
  Name : String
  Status : APIExportStatus
  deriving DecidableEq, Repr

/-- What a `client.Client` answers to the two calls `restConfigForAPIExport`
makes: `Get` of an `APIExport` by name, and `List` of all `APIExport`s. -/
structure Client where
  Get : String → Except Error APIExport
  List : Except Error (List APIExport)

/-! ## External library functions -/

/-- Client-go's `rest.CopyConfig`: builds a new `Config` field by field from
`*config`; on a nil pointer the first field read panics. -/
def CopyConfig (config : Option Config) : Except Panic Config :=
  match config with
  | none => .error .nilPointerDereference
  | some c => .ok {
      Host := c.Host
      APIPath := c.APIPath
      Username := c.Username
      Password := c.Password
      BearerToken := c.BearerToken
      BearerTokenFile := c.BearerTokenFile
      UserAgent := c.UserAgent
      Insecure := c.Insecure
      QPS := c.QPS
      Burst := c.Burst
      Timeout := c.Timeout }

/-- Go slice indexing `xs[0]`, which panics on an empty slice. -/
def index0 {α : Type} (xs : List α) : Except Panic α :=
  match xs with
  | [] => .error .indexOutOfRange
  | x :: _ => .ok x

/-! ## `GetRESTConfig` (lines 118-129) -/

/-- `GetRESTConfig`, given the result pair of `ctrl.GetConfig()`. -/
def GetRESTConfig (GetConfig : Option Config × Option Error) :
    Except Panic (Option Config × Option Error) :=
  match GetConfig with
  | (_, some err) => .ok (none, some err)
  | (none, none) => .error .nilPointerDereference
  | (some res, none) => .ok (some { res with QPS := 100, Burst := 250 }, none)

/-! ## `restConfigForAPIExport` (lines 133-164) -/

/-- `restConfigForAPIExport(ctx, cfg, apiExportClient, apiExportName)`. -/
def restConfigForAPIExport (cfg : Option Config) (apiExportClient : Client)
    (apiExportName : String) : Except Panic (Option Config × Option Error) :=
  -- lines 155-163, run once `apiExport` has been filled in
  let rest (apiExport : APIExport) : Except Panic (Option Config × Option Error) :=
    if apiExport.Status.VirtualWorkspaces.length < 1 then
      .ok (none, some (.errorf "APIExport %q status.virtualWorkspaces is empty" [apiExportName]))
    else
      match CopyConfig cfg with
      | .error p => .error p
      | .ok cfg =>
        match index0 apiExport.Status.VirtualWorkspaces with
        | .error p => .error p
        | .ok vw => .ok (some { cfg with Host := vw.URL }, none)
  if apiExportName ≠ "" then
    match apiExportClient.Get apiExportName with
    | .error err =>
      .ok (none, some (.wrapf "error getting APIExport %q: %w" [apiExportName] err))
    | .ok apiExport => rest apiExport
  else
    match apiExportClient.List with
    | .error err => .ok (none, some (.wrapf "error listing APIExports: %w" [] err))
    | .ok Items =>
      if Items.length = 0 then
        .ok (none, some (.errorf "no APIExport found" []))
      else if Items.length > 1 then
        .ok (none, some (.errorf "more than one APIExport found" []))
      else
        match index0 Items with
        | .error p => .error p
        | .ok apiExport => rest apiExport

/-! ## `NewVirtualWorkspaceClient` (lines 57-116) -/

/-- Everything `NewVirtualWorkspaceClient` obtains from outside the repository. -/
structure World where
  /-- Result pair of `ctrl.GetConfig()`. -/
  GetConfig : Option Config × Option Error
  /-- Result of `clientgoscheme.AddToScheme(scheme)`. -/
  clientgoschemeAdd : Option Error
  /-- Result of `tenancyv1alpha1.AddToScheme(scheme)`. -/
  tenancyv1alpha1Add : Option Error
  /-- Result of `datav1alpha1.AddToScheme(scheme)`. -/
  datav1alpha1Add : Option Error
  /-- Result of `apisv1alpha1.AddToScheme(scheme)`. -/
  apisv1alpha1Add : Option Error
  /-- Result of `gitopsv1alpha1.AddToScheme(scheme)`. -/
  gitopsv1alpha1Add : Option Error
  /-- Printed form of `tenancyv1alpha1.SchemeGroupVersion`. -/
  tenancyGroupVersion : String
  /-- Printed form of `datav1alpha1.GroupVersion`. -/
  dataGroupVersion : String
  /-- Printed form of `apisv1alpha1.SchemeGroupVersion`. -/
  apisGroupVersion : String
  /-- Printed form of `gitopsv1alpha1.GroupVersion`. -/
  gitopsGroupVersion : String
  /-- Error result of `kcp.ClusterAwareHTTPClient(restConfig)`. -/
  ClusterAwareHTTPClient : Option Config → Option Error
  /-- Error result of `client.New(restConfig, ...)`. -/
  clientNew : Option Config → Option Error
  /-- What the APIExport client built at line 84 answers during poll attempt
  `i` (attempts are numbered from `0`). -/
  apiExportClient : Nat → Client
  /-- How many values the loop of `wait.PollImmediate(time.Second, time.Second*120, _)`
  receives from the poller's channel before the 120-second timeout closes that
  channel: the attempts made inside the budget, after the immediate one.  Attempts
  `0 .. ticks` are made before the deadline, attempt `ticks + 1` after it.
  Wall-clock time enters the embedding only through this number. -/
  ticks : Nat

/-- A call that leaves `NewVirtualWorkspaceClient`, with the configuration passed. -/
inductive Call where
  | ClusterAwareHTTPClient (restConfig : Option Config)
  | clientNew (restConfig : Option Config)
  | restConfigForAPIExport (cfg : Option Config)
  deriving DecidableEq

/-- The variable `restConfig` of `NewVirtualWorkspaceClient`, which the poll
closure captures and assigns, and two records kept beside it: the calls made so
far, oldest first, and how many of them had been made when the poll's timeout
fired (`none` as long as it has not fired). -/
structure Vars where
  restConfig : Option Config
  calls : List Call
  callsAtTimeout : Option Nat

/-- The calls made after the poll's timeout fired, oldest first. -/
def callsAfterTimeout (v : Vars) : List Call :=
  match v.callsAtTimeout with
  | none => []
  | some n => v.calls.drop n

/-- A client returned by `client.New(restConfig, ...)`, identified by the
configuration it was built from. -/
structure BuiltClient where
  restConfig : Option Config
  deriving DecidableEq

/-- The closure passed to `wait.PollImmediate` (lines 95-103), invoked as poll
attempt `attempt`.  Its two `fmt.Printf` lines only print. -/
def condition (w : World) (attempt : Nat) (v : Vars) :
    Vars × Except Panic (Bool × Option Error) :=
  let v := { v with calls := v.calls ++ [Call.restConfigForAPIExport v.restConfig] }
  match restConfigForAPIExport v.restConfig (w.apiExportClient attempt)
      "gitopsrvc-backend-shared" with
  | .error p => (v, .error p)
  | .ok (restConfig, err) =>
    let v := { v with restConfig := restConfig }
    match err with
    | some _ => (v, .ok (false, none))
    | none => (v, .ok (true, none))

/-- Apimachinery's `wait.WaitFor`, as `wait.PollImmediate` runs it: the condition
is invoked once for every value received from the poller's channel, of which
`ticks` are still to come, and once more when the receive reports the channel
closed, which is how the timeout reaches the loop.  An error of the condition or
`done = true` ends the loop at once; `ErrWaitTimeout` is returned only after the
invocation on the closed channel.  The next invocation is attempt `attempt`. -/
def WaitFor (fn : Nat → Vars → Vars × Except Panic (Bool × Option Error)) :
    Nat → Nat → Vars → Vars × Except Panic (Option Error)
  | 0, attempt, v =>
    -- `open` is false: the timeout has fired and closed the channel
    match fn attempt { v with callsAtTimeout := some v.calls.length } with
    | (v, .error p) => (v, .error p)
    | (v, .ok (_, some err)) => (v, .ok (some err))
    | (v, .ok (true, none)) => (v, .ok none)
    | (v, .ok (false, none)) => (v, .ok (some .ErrWaitTimeout))
  | ticks + 1, attempt, v =>
    match fn attempt v with
    | (v, .error p) => (v, .error p)
    | (v, .ok (_, some err)) => (v, .ok (some err))
    | (v, .ok (true, none)) => (v, .ok none)
    | (v, .ok (false, none)) => WaitFor fn ticks (attempt + 1) v

/-- Apimachinery's `wait.PollImmediate`: the condition runs once immediately; if
that neither fails nor reports `done`, `WaitFor` takes over with a poller that
delivers `ticks` values before its timeout closes the channel. -/
def PollImmediate (ticks : Nat)
    (condition : Nat → Vars → Vars × Except Panic (Bool × Option Error)) (v : Vars) :
    Vars × Except Panic (Option Error) :=
  match condition 0 v with
  | (v, .error p) => (v, .error p)
  | (v, .ok (_, some err)) => (v, .ok (some err))
  | (v, .ok (true, none)) => (v, .ok none)
  | (v, .ok (false, none)) => WaitFor condition ticks 1 v

/-- `NewVirtualWorkspaceClient()`: the calls made, and either a panic or the
result pair. -/
def NewVirtualWorkspaceClient (w : World) :
    List Call × Except Panic (Option BuiltClient × Option Error) :=
  match GetRESTConfig w.GetConfig with
  | .error p => ([], .error p)
  | .ok (_, some err) => ([], .ok (none, some err))
  | .ok (restConfig, none) =>
  match w.clientgoschemeAdd with
  | some err => ([], .ok (none, some (.errorfV "failed to add client go to scheme: %v" [] err)))
  | none =>
  match w.tenancyv1alpha1Add with
  | some err =>
    ([], .ok (none, some (.errorfV "failed to add %s to scheme: %v" [w.tenancyGroupVersion] err)))
  | none =>
  match w.datav1alpha1Add with
  | some err =>
    ([], .ok (none, some (.errorfV "failed to add %s to scheme: %v" [w.dataGroupVersion] err)))
  | none =>
  match w.apisv1alpha1Add with
  | some err =>
    ([], .ok (none, some (.errorfV "failed to add %s to scheme: %v" [w.apisGroupVersion] err)))
  | none =>
  match w.ClusterAwareHTTPClient restConfig with
  | some err => ([.ClusterAwareHTTPClient restConfig], .ok (none, some err))
  | none =>
  let calls := [Call.ClusterAwareHTTPClient restConfig, Call.clientNew restConfig]
  match w.clientNew restConfig with
  | some err => (calls, .ok (none, some (.wrapf "error creating APIExport client: %w" [] err)))
  | none =>
  match w.gitopsv1alpha1Add with
  | some err =>
    (calls, .ok (none, some (.errorfV "failed to add %s to scheme: %v" [w.gitopsGroupVersion] err)))
  | none =>
  match PollImmediate w.ticks (condition w)
      { restConfig := restConfig, calls := calls, callsAtTimeout := none } with
  | (v, .error p) => (v.calls, .error p)
  | (v, .ok (some _)) =>
    (v.calls, .ok (none, some (.errorf "virtual workspace URL never became available" [])))
  | (v, .ok none) =>
  match w.ClusterAwareHTTPClient v.restConfig with
  | some err => (v.calls ++ [.ClusterAwareHTTPClient v.restConfig], .ok (none, some err))
  | none =>
  let calls := v.calls ++ [.ClusterAwareHTTPClient v.restConfig, .clientNew v.restConfig]
  match w.clientNew v.restConfig with
  | some err => (calls, .ok (none, some err))
  | none => (calls, .ok (some { restConfig := v.restConfig }, none))

/-- Lines 58-92 all succeed: `GetRESTConfig` hands back `base`, the five scheme
registrations return nil, and the HTTP client and the APIExport client are built
from `base` without error.  The poll then starts with `restConfig = base`. -/
def SetupSucceeds (w : World) (base : Config) : Prop :=
  GetRESTConfig w.GetConfig = .ok (some base, none)
  ∧ w.clientgoschemeAdd = none ∧ w.tenancyv1alpha1Add = none ∧ w.datav1alpha1Add = none
  ∧ w.apisv1alpha1Add = none ∧ w.gitopsv1alpha1Add = none
  ∧ w.ClusterAwareHTTPClient (some base) = none ∧ w.clientNew (some base) = none

/-- The calls made by lines 58-92 when they succeed with `base`. -/
def setupCalls (base : Config) : List Call :=
  [.ClusterAwareHTTPClient (some base), .clientNew (some base)]

/-! ## Sample inputs -/

/-- The base configuration of the end-to-end example: host `https://cp.example`,
some credentials, and throttling still at zero. -/
def cpExample : Config :=
  { Host := "https://cp.example", APIPath := "/api", Username := "admin", Password := "pw",
    BearerToken := "tok", BearerTokenFile := "", UserAgent := "demo", Insecure := false,
    QPS := 0, Burst := 0, Timeout := 30 }

/-- A descriptor that publishes two virtual endpoints. -/
def twoEndpoints : APIExport :=
  { Name := "gitopsrvc-backend-shared",
    Status := { VirtualWorkspaces := [{ URL := "https://vw.example/a" }, { URL := "https://vw.example/b" }] } }

/-- A descriptor that publishes no virtual endpoint yet. -/
def noEndpoint : APIExport :=
  { Name := "gitopsrvc-backend-shared", Status := { VirtualWorkspaces := [] } }

/-- The registry's answer for a name it does not hold. -/
def notFound (name : String) : Error :=
  .status "NotFound" name

/-- A registry client that holds exactly the descriptors `items`, looked up by name. -/
def registryOf (items : List APIExport) : Client :=
  { Get := fun name =>
      match items.find? (fun d => d.Name == name) with
      | some d => .ok d
      | none => .error (notFound name)
    List := .ok items }

/-- The configuration `GetRESTConfig` makes of `cpExample`. -/
def cpBase : Config :=
  { cpExample with QPS := 100, Burst := 250 }

/-- A registry in which the descriptor is published only after the first poll
attempt: attempt `0` finds nothing, every later attempt finds `twoEndpoints`. -/
def publishedLate (attempt : Nat) : Client :=
  if attempt = 0 then registryOf [] else registryOf [twoEndpoints]

/-- A registry in which the descriptor is never published. -/
def neverPublished (_attempt : Nat) : Client :=
  registryOf []

/-- A world whose ambient configuration is `cpExample`, in which every external
call other than the registry lookups succeeds, with the given registry answers
and number of poller ticks. -/
def sampleWorld (ticks : Nat) (registry : Nat → Client) : World :=
  { GetConfig := (some cpExample, none)
    clientgoschemeAdd := none
    tenancyv1alpha1Add := none
    datav1alpha1Add := none
    apisv1alpha1Add := none
    gitopsv1alpha1Add := none
    tenancyGroupVersion := "tenancy.kcp.dev/v1alpha1"
    dataGroupVersion := "data.my.domain/v1alpha1"
    apisGroupVersion := "apis.kcp.dev/v1alpha1"
    gitopsGroupVersion := "managed-gitops.redhat.com/v1alpha1"
    ClusterAwareHTTPClient := fun _ => none
    clientNew := fun _ => none
    apiExportClient := registry
    ticks := ticks }

end KcpExample

namespace KcpExample

/-! ## Single attempts: `restConfigForAPIExport` -/

/-- C1: with a non-nil base configuration `c`, when the lookup yields a descriptor
`d` (named: `Get name` returns `d`; unnamed: `List` returns exactly `[d]`) whose
endpoint list starts with `vw`, `restConfigForAPIExport` returns a nil error and
`c` with only `Host` replaced by `vw.URL`, whatever endpoints follow `vw`. -/
theorem restConfigForAPIExport_first_endpoint (c : Config) (client : Client) (name : String)
    (d : APIExport) (vw : VirtualWorkspace) (more : List VirtualWorkspace)
    (hlookup : (name ≠ "" ∧ client.Get name = .ok d) ∨ (name = "" ∧ client.List = .ok [d]))
    (hvw : d.Status.VirtualWorkspaces = vw :: more) :
    restConfigForAPIExport (some c) client name = .ok (some { c with Host := vw.URL }, none) := by
  rcases hlookup with ⟨hn, hget⟩ | ⟨hn, hlist⟩
  · simp [restConfigForAPIExport, hn, hget, hvw, CopyConfig, index0]
  · simp [restConfigForAPIExport, hn, hlist, hvw, CopyConfig, index0]

/-- Witness for C1 in named mode: the second endpoint of `twoEndpoints` is ignored. -/
theorem restConfigForAPIExport_first_endpoint_witness :
    restConfigForAPIExport (some cpExample) (registryOf [twoEndpoints]) "gitopsrvc-backend-shared"
      = .ok (some { cpExample with Host := "https://vw.example/a" }, none) :=
  restConfigForAPIExport_first_endpoint cpExample (registryOf [twoEndpoints])
    "gitopsrvc-backend-shared" twoEndpoints { URL := "https://vw.example/a" }
    [{ URL := "https://vw.example/b" }] (Or.inl ⟨by decide, rfl⟩) rfl

/-- C5: in unnamed mode, when `List` succeeds with no item, `restConfigForAPIExport`
returns a nil configuration and the error `no APIExport found`, for every base
configuration (nil included); that error is neither the "more than one" error nor
an "is empty" error. -/
theorem restConfigForAPIExport_none_found (cfg : Option Config) (client : Client)
    (hlist : client.List = .ok []) :
    restConfigForAPIExport cfg client "" = .ok (none, some (.errorf "no APIExport found" []))
    ∧ restConfigForAPIExport cfg client ""
        ≠ .ok (none, some (.errorf "more than one APIExport found" []))
    ∧ ∀ args, restConfigForAPIExport cfg client ""
        ≠ .ok (none, some (.errorf "APIExport %q status.virtualWorkspaces is empty" args)) := by
  have h : restConfigForAPIExport cfg client ""
      = .ok (none, some (.errorf "no APIExport found" [])) := by
    simp [restConfigForAPIExport, hlist]
  refine ⟨h, ?_, ?_⟩
  · rw [h]; simp
  · intro args; rw [h]; simp

/-- Witness for C5: an empty registry, asked without a name. -/
theorem restConfigForAPIExport_none_found_witness :
    restConfigForAPIExport (some cpExample) (registryOf []) ""
      = .ok (none, some (.errorf "no APIExport found" [])) :=
  (restConfigForAPIExport_none_found (some cpExample) (registryOf []) rfl).1

/-- C6: in unnamed mode, when `List` succeeds with two or more items,
`restConfigForAPIExport` returns a nil configuration and the error
`more than one APIExport found`, whatever the items carry; and whenever an unnamed
lookup returns a nil error, the listing held exactly one descriptor. -/
theorem restConfigForAPIExport_ambiguous (cfg : Option Config) (client : Client)
    (Items : List APIExport) (hlist : client.List = .ok Items) (hlen : 2 ≤ Items.length) :
    restConfigForAPIExport cfg client ""
      = .ok (none, some (.errorf "more than one APIExport found" []))
    ∧ ∀ (cfg' : Option Config) (client' : Client) (r : Option Config),
        restConfigForAPIExport cfg' client' "" = .ok (r, none) →
          ∃ d, client'.List = .ok [d] := by
  constructor
  · have h0 : Items.length ≠ 0 := by omega
    have h1 : Items.length > 1 := by omega
    simp [restConfigForAPIExport, hlist, h0, h1]
  · intro cfg' client' r hr
    cases hl : client'.List with
    | error e => simp [restConfigForAPIExport, hl] at hr
    | ok items =>
      match items, hl with
      | [], hl => simp [restConfigForAPIExport, hl] at hr
      | [d], _ => exact ⟨d, rfl⟩
      | _ :: _ :: _, hl => simp [restConfigForAPIExport, hl] at hr

/-- Witness for C6: a registry holding the same descriptor twice, asked without a name. -/
theorem restConfigForAPIExport_ambiguous_witness :
    restConfigForAPIExport (some cpExample) (registryOf [twoEndpoints, twoEndpoints]) ""
      = .ok (none, some (.errorf "more than one APIExport found" [])) :=
  (restConfigForAPIExport_ambiguous (some cpExample) (registryOf [twoEndpoints, twoEndpoints])
    [twoEndpoints, twoEndpoints] rfl (by decide)).1

/-- C7: in named mode, when `Get name` fails with a NotFound error `e`,
`restConfigForAPIExport` returns a nil configuration and the error
`error getting APIExport %q: %w` built from `name` and `e`; unwrapping it gives `e`
back, it still tests as NotFound, and the result does not depend on what `List`
would answer. -/
theorem restConfigForAPIExport_not_found (cfg : Option Config) (client : Client)
    (name : String) (e : Error) (hname : name ≠ "") (hget : client.Get name = .error e)
    (hnf : e.IsNotFound = true) :
    restConfigForAPIExport cfg client name
      = .ok (none, some (.wrapf "error getting APIExport %q: %w" [name] e))
    ∧ (Error.wrapf "error getting APIExport %q: %w" [name] e).Unwrap = some e
    ∧ (Error.wrapf "error getting APIExport %q: %w" [name] e).IsNotFound = true
    ∧ ∀ L, restConfigForAPIExport cfg { client with List := L } name
        = restConfigForAPIExport cfg client name := by
  refine ⟨?_, rfl, ?_, ?_⟩
  · simp [restConfigForAPIExport, hname, hget]
  · simpa [Error.IsNotFound] using hnf
  · intro L
    simp [restConfigForAPIExport, hname, hget]

/-- Witness for C7: the name asked for is not among the registry's descriptors. -/
theorem restConfigForAPIExport_not_found_witness :
    restConfigForAPIExport (some cpExample) (registryOf [twoEndpoints]) "missing"
      = .ok (none, some (.wrapf "error getting APIExport %q: %w" ["missing"]
          (notFound "missing"))) :=
  (restConfigForAPIExport_not_found (some cpExample) (registryOf [twoEndpoints]) "missing"
    (notFound "missing") (by decide) rfl rfl).1

/-- C8: in both lookup modes and for every base configuration (nil included), when
the lookup yields a descriptor whose `Status.VirtualWorkspaces` is empty,
`restConfigForAPIExport` returns normally (no panic, so the empty list is not
indexed) with a nil configuration and the error
`APIExport %q status.virtualWorkspaces is empty`. -/
theorem restConfigForAPIExport_no_virtual_endpoint (cfg : Option Config) (client : Client)
    (name : String) (d : APIExport)
    (hlookup : (name ≠ "" ∧ client.Get name = .ok d) ∨ (name = "" ∧ client.List = .ok [d]))
    (hvw : d.Status.VirtualWorkspaces = []) :
    restConfigForAPIExport cfg client name
      = .ok (none, some (.errorf "APIExport %q status.virtualWorkspaces is empty" [name])) := by
  rcases hlookup with ⟨hn, hget⟩ | ⟨hn, hlist⟩
  · simp [restConfigForAPIExport, hn, hget, hvw]
  · simp [restConfigForAPIExport, hn, hlist, hvw, index0]

/-- Witness for C8 in unnamed mode: the only descriptor listed has no endpoint. -/
theorem restConfigForAPIExport_no_virtual_endpoint_witness :
    restConfigForAPIExport (some cpExample) (registryOf [noEndpoint]) ""
      = .ok (none, some (.errorf "APIExport %q status.virtualWorkspaces is empty" [""])) :=
  restConfigForAPIExport_no_virtual_endpoint (some cpExample) (registryOf [noEndpoint]) ""
    noEndpoint (Or.inr ⟨rfl, rfl⟩) rfl

/-! ## `GetRESTConfig` -/

/-- C9: when `ctrl.GetConfig()` returns `c` with a nil error, `GetRESTConfig` returns
a nil error and `c` with `QPS = 100`, `Burst = 250` and every other field unchanged;
on the sample `{host: "https://cp.example", qps: 0, burst: 0}` the host stays and
the throttling becomes `100` and `250`; and when `ctrl.GetConfig()` returns an error
`GetRESTConfig` returns a nil configuration and that same error. -/
theorem GetRESTConfig_overrides_throttling :
    (∀ c : Config,
      GetRESTConfig (some c, none) = .ok (some { c with QPS := 100, Burst := 250 }, none))
    ∧ GetRESTConfig (some cpExample, none)
        = .ok (some { Host := "https://cp.example", APIPath := "/api", Username := "admin",
                      Password := "pw", BearerToken := "tok", BearerTokenFile := "",
                      UserAgent := "demo", Insecure := false, QPS := 100, Burst := 250,
                      Timeout := 30 }, none)
    ∧ ∀ (res : Option Config) (err : Error),
        GetRESTConfig (res, some err) = .ok (none, some err) := by
  refine ⟨fun c => rfl, rfl, ?_⟩
  intro res err
  cases res <;> rfl

/-! ## The poll closure and the poll loop -/

/-- An attempt that returns an error returns the same error, with a nil
configuration, whatever base configuration it is given: every error path of
`restConfigForAPIExport` is left before `cfg` is read. -/
theorem restConfigForAPIExport_error_any_cfg {cfg : Option Config} {client : Client}
    {name : String} {r : Option Config} {e : Error}
    (h : restConfigForAPIExport cfg client name = .ok (r, some e)) (cfg' : Option Config) :
    restConfigForAPIExport cfg' client name = .ok (none, some e) := by
  unfold restConfigForAPIExport at h ⊢
  by_cases hn : name = ""
  · simp only [hn, ne_eq, not_true_eq_false, if_false] at h ⊢
    cases hl : client.List with
    | error err => simp_all
    | ok items =>
      rcases items with _ | ⟨d, _ | ⟨d', tl⟩⟩
      · simp_all
      · cases hv : d.Status.VirtualWorkspaces with
        | nil => simp_all [index0]
        | cons vw more => cases cfg <;> simp_all [index0, CopyConfig]
      · simp_all
  · simp only [ne_eq, hn, not_false_eq_true, if_true] at h ⊢
    cases hg : client.Get name with
    | error err => simp_all
    | ok d =>
      cases hv : d.Status.VirtualWorkspaces with
      | nil => simp_all
      | cons vw more => cases cfg <;> simp_all [index0, CopyConfig]

/-- An attempt that returns a nil error returns a non-nil configuration. -/
theorem restConfigForAPIExport_success_isSome {cfg : Option Config} {client : Client}
    {name : String} {r : Option Config}
    (h : restConfigForAPIExport cfg client name = .ok (r, none)) : r.isSome = true := by
  unfold restConfigForAPIExport at h
  by_cases hn : name = ""
  · simp only [hn, ne_eq, not_true_eq_false, if_false] at h
    cases hl : client.List with
    | error err => simp_all
    | ok items =>
      rcases items with _ | ⟨d, _ | ⟨d', tl⟩⟩
      · simp_all
      · cases hv : d.Status.VirtualWorkspaces with
        | nil => simp_all [index0]
        | cons vw more =>
          cases cfg with
          | none => simp_all [index0, CopyConfig]
          | some c =>
            simp [hl, hv, index0, CopyConfig] at h
            simp [← h]
      · simp_all
  · simp only [ne_eq, hn, not_false_eq_true, if_true] at h
    cases hg : client.Get name with
    | error err => simp_all
    | ok d =>
      cases hv : d.Status.VirtualWorkspaces with
      | nil => simp_all
      | cons vw more =>
        cases cfg with
        | none => simp_all [index0, CopyConfig]
        | some c =>
          simp [hg, hv, index0, CopyConfig] at h
          simp [← h]

/-- The errors a single attempt can return: a wrapped `Get` failure, a wrapped
`List` failure, "no APIExport found", "more than one APIExport found", or
"status.virtualWorkspaces is empty". -/
theorem restConfigForAPIExport_error_forms {cfg : Option Config} {client : Client}
    {name : String} {r : Option Config} {e : Error}
    (h : restConfigForAPIExport cfg client name = .ok (r, some e)) :
    (∃ err, client.Get name = .error err
        ∧ e = .wrapf "error getting APIExport %q: %w" [name] err)
    ∨ (∃ err, client.List = .error err ∧ e = .wrapf "error listing APIExports: %w" [] err)
    ∨ e = .errorf "no APIExport found" []
    ∨ e = .errorf "more than one APIExport found" []
    ∨ e = .errorf "APIExport %q status.virtualWorkspaces is empty" [name] := by
  unfold restConfigForAPIExport at h
  by_cases hn : name = ""
  · simp only [hn, ne_eq, not_true_eq_false, if_false] at h
    cases hl : client.List with
    | error err => simp_all
    | ok items =>
      rcases items with _ | ⟨d, _ | ⟨d', tl⟩⟩
      · simp_all
      · cases hv : d.Status.VirtualWorkspaces with
        | nil => simp_all [index0]
        | cons vw more => cases cfg <;> simp_all [index0, CopyConfig]
      · simp_all
  · simp only [ne_eq, hn, not_false_eq_true, if_true] at h
    cases hg : client.Get name with
    | error err => simp_all
    | ok d =>
      cases hv : d.Status.VirtualWorkspaces with
      | nil => simp_all
      | cons vw more => cases cfg <;> simp_all [index0, CopyConfig]

/-- The closure on an attempt that returns an error: `restConfig` becomes nil, the
call is recorded, and the closure answers `(false, nil)`. -/
theorem condition_of_error (w : World) (attempt : Nat) (v : Vars) {r : Option Config}
    {e : Error}
    (h : restConfigForAPIExport v.restConfig (w.apiExportClient attempt)
      "gitopsrvc-backend-shared" = .ok (r, some e)) :
    condition w attempt v
      = ({ v with restConfig := none,
                  calls := v.calls ++ [.restConfigForAPIExport v.restConfig] },
         .ok (false, none)) := by
  have h' := restConfigForAPIExport_error_any_cfg h v.restConfig
  simp [condition, h']

/-- The closure on an attempt that returns a nil error: `restConfig` becomes the
returned configuration, the call is recorded, and the closure answers `(true, nil)`. -/
theorem condition_of_success (w : World) (attempt : Nat) (v : Vars) {r : Option Config}
    (h : restConfigForAPIExport v.restConfig (w.apiExportClient attempt)
      "gitopsrvc-backend-shared" = .ok (r, none)) :
    condition w attempt v
      = ({ v with restConfig := r,
                  calls := v.calls ++ [.restConfigForAPIExport v.restConfig] },
         .ok (true, none)) := by
  simp [condition, h]

/-- The closure on an attempt that panics: the call is recorded and the panic
propagates. -/
theorem condition_of_panic (w : World) (attempt : Nat) (v : Vars) {p : Panic}
    (h : restConfigForAPIExport v.restConfig (w.apiExportClient attempt)
      "gitopsrvc-backend-shared" = .error p) :
    condition w attempt v
      = ({ v with calls := v.calls ++ [.restConfigForAPIExport v.restConfig] },
         .error p) := by
  simp [condition, h]

/-- Once `restConfig` is nil, `k` failing attempts in a row, each made on a value
received from the poller, are `k` calls with a nil configuration; they leave
`restConfig` nil and the timeout not yet fired. -/
theorem WaitFor_failures (w : World) (k : Nat) :
    ∀ (ticks attempt : Nat) (calls : List Call) (t : Option Nat), k ≤ ticks →
      (∀ i, attempt ≤ i → i < attempt + k → ∃ cfg r e,
        restConfigForAPIExport cfg (w.apiExportClient i) "gitopsrvc-backend-shared"
          = .ok (r, some e)) →
      WaitFor (condition w) ticks attempt
          { restConfig := none, calls := calls, callsAtTimeout := t }
        = WaitFor (condition w) (ticks - k) (attempt + k)
            { restConfig := none,
              calls := calls ++ List.replicate k (.restConfigForAPIExport none),
              callsAtTimeout := t } := by
  induction k with
  | zero => intro ticks attempt calls t _ _; simp
  | succ k ih =>
    intro ticks attempt calls t hk hfail
    obtain ⟨ticks, rfl⟩ : ∃ f, ticks = f + 1 := ⟨ticks - 1, by omega⟩
    obtain ⟨cfg, r, e, he⟩ := hfail attempt (le_refl _) (by omega)
    have hc := condition_of_error w attempt
      { restConfig := none, calls := calls, callsAtTimeout := t }
      (restConfigForAPIExport_error_any_cfg he none)
    have hrec := ih ticks (attempt + 1) (calls ++ [.restConfigForAPIExport none]) t
      (by omega) (fun i h1 h2 => hfail i (by omega) (by omega))
    rw [WaitFor, hc]
    simp only [hrec, List.append_assoc, List.singleton_append, Nat.add_sub_add_right]
    rw [← List.replicate_succ, show attempt + 1 + k = attempt + (k + 1) by omega]

/-- Once `restConfig` is nil, when all the attempts left fail (the `ticks` made on
received values and the one made on the closed channel), `WaitFor` makes
`ticks + 1` calls with a nil configuration, the last of them after the timeout
fired, and returns `ErrWaitTimeout`. -/
theorem WaitFor_all_fail (w : World) (ticks attempt : Nat) (calls : List Call)
    (t : Option Nat)
    (hfail : ∀ i, attempt ≤ i → i ≤ attempt + ticks → ∃ cfg r e,
      restConfigForAPIExport cfg (w.apiExportClient i) "gitopsrvc-backend-shared"
        = .ok (r, some e)) :
    WaitFor (condition w) ticks attempt
        { restConfig := none, calls := calls, callsAtTimeout := t }
      = ({ restConfig := none,
           calls := calls ++ List.replicate (ticks + 1) (.restConfigForAPIExport none),
           callsAtTimeout := some (calls.length + ticks) },
         .ok (some .ErrWaitTimeout)) := by
  have hpre := WaitFor_failures w ticks ticks attempt calls t (le_refl _)
    (fun i h1 h2 => hfail i h1 (by omega))
  obtain ⟨cfg, r, e, he⟩ := hfail (attempt + ticks) (by omega) (le_refl _)
  have hc := condition_of_error w (attempt + ticks)
    { restConfig := none,
      calls := calls ++ List.replicate ticks (.restConfigForAPIExport none),
      callsAtTimeout := some (calls.length + ticks) }
    (restConfigForAPIExport_error_any_cfg he none)
  rw [hpre, Nat.sub_self, WaitFor]
  simp only [List.length_append, List.length_replicate, hc, List.append_assoc,
    List.replicate_succ']

/-- A failing `Get` makes the attempt return the wrapped error, for any base
configuration. -/
theorem restConfigForAPIExport_get_error (cfg : Option Config) {client : Client} {err : Error}
    (h : client.Get "gitopsrvc-backend-shared" = .error err) :
    restConfigForAPIExport cfg client "gitopsrvc-backend-shared"
      = .ok (none, some (.wrapf "error getting APIExport %q: %w"
          ["gitopsrvc-backend-shared"] err)) := by
  have hn : ("gitopsrvc-backend-shared" : String) ≠ "" := by decide
  simp [restConfigForAPIExport, hn, h]

/-- With a nil base configuration, an attempt whose lookup succeeds and finds a
virtual endpoint panics in `rest.CopyConfig`. -/
theorem restConfigForAPIExport_nil_cfg_panics {client : Client} {d : APIExport}
    (h : client.Get "gitopsrvc-backend-shared" = .ok d)
    (hvw : d.Status.VirtualWorkspaces ≠ []) :
    restConfigForAPIExport none client "gitopsrvc-backend-shared"
      = .error .nilPointerDereference := by
  have hn : ("gitopsrvc-backend-shared" : String) ≠ "" := by decide
  simp [restConfigForAPIExport, hn, h, hvw, CopyConfig]

/-- When the setup succeeds, `NewVirtualWorkspaceClient` is the poll started from
`base` followed by lines 105-115. -/
theorem NewVirtualWorkspaceClient_of_setup {w : World} {base : Config}
    (hsetup : SetupSucceeds w base) :
    NewVirtualWorkspaceClient w =
      match PollImmediate w.ticks (condition w)
          { restConfig := some base, calls := setupCalls base, callsAtTimeout := none } with
      | (v, .error p) => (v.calls, .error p)
      | (v, .ok (some _)) =>
        (v.calls, .ok (none, some (.errorf "virtual workspace URL never became available" [])))
      | (v, .ok none) =>
        match w.ClusterAwareHTTPClient v.restConfig with
        | some err => (v.calls ++ [.ClusterAwareHTTPClient v.restConfig], .ok (none, some err))
        | none =>
          match w.clientNew v.restConfig with
          | some err =>
            (v.calls ++ [.ClusterAwareHTTPClient v.restConfig, .clientNew v.restConfig],
              .ok (none, some err))
          | none =>
            (v.calls ++ [.ClusterAwareHTTPClient v.restConfig, .clientNew v.restConfig],
              .ok (some { restConfig := v.restConfig }, none)) := by
  obtain ⟨h1, h2, h3, h4, h5, h6, h7, h8⟩ := hsetup
  simp only [NewVirtualWorkspaceClient, h1, h2, h3, h4, h5, h6, h7, h8, setupCalls]

/-- When every attempt of the poll fails, the one made after the timeout fired
included, the poll makes `ticks + 2` calls, the first with the configuration it
started from and the others with nil, records that `ticks + 1` of them preceded
the timeout, and ends with `ErrWaitTimeout`. -/
theorem PollImmediate_all_fail (w : World) (v : Vars)
    (hfail : ∀ i, i ≤ w.ticks + 1 → ∃ cfg r e,
      restConfigForAPIExport cfg (w.apiExportClient i) "gitopsrvc-backend-shared"
        = .ok (r, some e)) :
    PollImmediate w.ticks (condition w) v
      = ({ restConfig := none,
           calls := v.calls ++ .restConfigForAPIExport v.restConfig
             :: List.replicate (w.ticks + 1) (.restConfigForAPIExport none),
           callsAtTimeout := some (v.calls.length + 1 + w.ticks) },
         .ok (some .ErrWaitTimeout)) := by
  obtain ⟨cfg, r, e, he⟩ := hfail 0 (Nat.zero_le _)
  have hc := condition_of_error w 0 v (restConfigForAPIExport_error_any_cfg he v.restConfig)
  have hrec := WaitFor_all_fail w w.ticks 1
    (v.calls ++ [.restConfigForAPIExport v.restConfig]) v.callsAtTimeout
    (fun i _ h2 => hfail i (by omega))
  rw [PollImmediate, hc]
  simp only [hrec, List.append_assoc, List.singleton_append, List.length_append,
    List.length_singleton]

/-- If `WaitFor` returns an error value, that error is `ErrWaitTimeout` and all
`ticks + 1` invocations were made. -/
theorem WaitFor_error_is_timeout (w : World) :
    ∀ (ticks attempt : Nat) (v : Vars) (err : Error),
      (WaitFor (condition w) ticks attempt v).2 = .ok (some err) →
        err = .ErrWaitTimeout
        ∧ (WaitFor (condition w) ticks attempt v).1.calls.length
            = v.calls.length + (ticks + 1) := by
  intro ticks
  induction ticks with
  | zero =>
    intro attempt v err h
    cases hres : restConfigForAPIExport v.restConfig (w.apiExportClient attempt)
        "gitopsrvc-backend-shared" with
    | error p =>
      simp [WaitFor, condition_of_panic w attempt
        { v with callsAtTimeout := some v.calls.length } hres] at h
    | ok res =>
      obtain ⟨r, e⟩ := res
      cases e with
      | none =>
        simp [WaitFor, condition_of_success w attempt
          { v with callsAtTimeout := some v.calls.length } hres] at h
      | some e =>
        have hc := condition_of_error w attempt
          { v with callsAtTimeout := some v.calls.length } hres
        simp only [WaitFor, hc] at h ⊢
        simp_all
  | succ ticks ih =>
    intro attempt v err h
    cases hres : restConfigForAPIExport v.restConfig (w.apiExportClient attempt)
        "gitopsrvc-backend-shared" with
    | error p => simp [WaitFor, condition_of_panic w attempt v hres] at h
    | ok res =>
      obtain ⟨r, e⟩ := res
      cases e with
      | none => simp [WaitFor, condition_of_success w attempt v hres] at h
      | some e =>
        rw [WaitFor, condition_of_error w attempt v hres] at h ⊢
        obtain ⟨h1, h2⟩ := ih _ _ err h
        refine ⟨h1, ?_⟩
        simp only [h2, List.length_append, List.length_singleton]
        omega

/-- If the poll returns an error value, that error is `ErrWaitTimeout` and all
`ticks + 2` attempts were made. -/
theorem PollImmediate_error_is_timeout (w : World) (ticks : Nat) (v : Vars) (err : Error)
    (h : (PollImmediate ticks (condition w) v).2 = .ok (some err)) :
    err = .ErrWaitTimeout
    ∧ (PollImmediate ticks (condition w) v).1.calls.length
        = v.calls.length + (ticks + 2) := by
  cases hres : restConfigForAPIExport v.restConfig (w.apiExportClient 0)
      "gitopsrvc-backend-shared" with
  | error p => simp [PollImmediate, condition_of_panic w 0 v hres] at h
  | ok res =>
    obtain ⟨r, e⟩ := res
    cases e with
    | none => simp [PollImmediate, condition_of_success w 0 v hres] at h
    | some e =>
      rw [PollImmediate, condition_of_error w 0 v hres] at h ⊢
      obtain ⟨h1, h2⟩ := WaitFor_error_is_timeout w _ _ _ err h
      refine ⟨h1, ?_⟩
      simp only [h2, List.length_append, List.length_singleton]
      omega

/-- The calls `WaitFor` makes: the first passes the configuration the loop started
with, every later one passes nil. -/
theorem WaitFor_later_calls_nil (w : World) :
    ∀ (ticks attempt : Nat) (v : Vars), ∃ k, k ≤ ticks ∧
      (WaitFor (condition w) ticks attempt v).1.calls
        = v.calls ++ .restConfigForAPIExport v.restConfig
            :: List.replicate k (.restConfigForAPIExport none) := by
  intro ticks
  induction ticks with
  | zero =>
    intro attempt v
    refine ⟨0, le_refl _, ?_⟩
    cases hres : restConfigForAPIExport v.restConfig (w.apiExportClient attempt)
        "gitopsrvc-backend-shared" with
    | error p =>
      simp [WaitFor, condition_of_panic w attempt
        { v with callsAtTimeout := some v.calls.length } hres]
    | ok res =>
      obtain ⟨r, e⟩ := res
      cases e with
      | none =>
        simp [WaitFor, condition_of_success w attempt
          { v with callsAtTimeout := some v.calls.length } hres]
      | some e =>
        simp [WaitFor, condition_of_error w attempt
          { v with callsAtTimeout := some v.calls.length } hres]
  | succ ticks ih =>
    intro attempt v
    cases hres : restConfigForAPIExport v.restConfig (w.apiExportClient attempt)
        "gitopsrvc-backend-shared" with
    | error p =>
      exact ⟨0, Nat.zero_le _, by simp [WaitFor, condition_of_panic w attempt v hres]⟩
    | ok res =>
      obtain ⟨r, e⟩ := res
      cases e with
      | none =>
        exact ⟨0, Nat.zero_le _, by simp [WaitFor, condition_of_success w attempt v hres]⟩
      | some e =>
        obtain ⟨k, hk, hcalls⟩ := ih (attempt + 1)
          { v with restConfig := none,
                   calls := v.calls ++ [.restConfigForAPIExport v.restConfig] }
        refine ⟨k + 1, by omega, ?_⟩
        rw [WaitFor, condition_of_error w attempt v hres]
        simp only [hcalls, List.append_assoc, List.singleton_append, List.replicate_succ]

/-- The calls a poll makes: the first passes the configuration the poll started
with, every later one passes nil. -/
theorem PollImmediate_later_calls_nil (w : World) (ticks : Nat) (v : Vars) :
    ∃ k, k ≤ ticks + 1 ∧
      (PollImmediate ticks (condition w) v).1.calls
        = v.calls ++ .restConfigForAPIExport v.restConfig
            :: List.replicate k (.restConfigForAPIExport none) := by
  cases hres : restConfigForAPIExport v.restConfig (w.apiExportClient 0)
      "gitopsrvc-backend-shared" with
  | error p =>
    exact ⟨0, Nat.zero_le _, by simp [PollImmediate, condition_of_panic w 0 v hres]⟩
  | ok res =>
    obtain ⟨r, e⟩ := res
    cases e with
    | none =>
      exact ⟨0, Nat.zero_le _, by simp [PollImmediate, condition_of_success w 0 v hres]⟩
    | some e =>
      obtain ⟨k, hk, hcalls⟩ := WaitFor_later_calls_nil w ticks 1
        { v with restConfig := none,
                 calls := v.calls ++ [.restConfigForAPIExport v.restConfig] }
      refine ⟨k + 1, by omega, ?_⟩
      rw [PollImmediate, condition_of_error w 0 v hres]
      simp only [hcalls, List.append_assoc, List.singleton_append, List.replicate_succ]

/-- The last of `n + 2` calls appended to `calls` is what remains after dropping
the first `calls.length + 1 + n` entries. -/
theorem drop_calls_before_last (calls : List Call) (first later : Call) (n : Nat) :
    (calls ++ first :: List.replicate (n + 1) later).drop (calls.length + 1 + n) = [later] := by
  have hlen : (calls ++ first :: List.replicate n later).length = calls.length + 1 + n := by
    simp; omega
  have hsplit : calls ++ first :: List.replicate (n + 1) later
      = (calls ++ first :: List.replicate n later) ++ [later] := by
    simp [List.replicate_succ']
  rw [hsplit, ← hlen, List.drop_left]

/-! ## The poll in `NewVirtualWorkspaceClient` -/

/-- When the very first attempt succeeds, the poll ends without error after one
call, and `restConfig` is the base configuration with its host replaced by the
first endpoint URL. -/
theorem PollImmediate_first_attempt_success (w : World) (base : Config) (calls : List Call)
    (d : APIExport) (vw : VirtualWorkspace) (more : List VirtualWorkspace)
    (hget : (w.apiExportClient 0).Get "gitopsrvc-backend-shared" = .ok d)
    (hvw : d.Status.VirtualWorkspaces = vw :: more) :
    PollImmediate w.ticks (condition w)
        { restConfig := some base, calls := calls, callsAtTimeout := none }
      = ({ restConfig := some { base with Host := vw.URL },
           calls := calls ++ [.restConfigForAPIExport (some base)],
           callsAtTimeout := none }, .ok none) := by
  have h := restConfigForAPIExport_first_endpoint base (w.apiExportClient 0)
    "gitopsrvc-backend-shared" d vw more (Or.inl ⟨by decide, hget⟩) hvw
  have hc := condition_of_success w 0
    { restConfig := some base, calls := calls, callsAtTimeout := none } h
  rw [PollImmediate, hc]

/-- A poll started with `base` in which `Get` fails on attempts `0 .. N-1`, with
`1 ≤ N`, and returns a descriptor with a virtual endpoint on attempt `N`, be that
attempt made inside the budget or on the closed channel, makes `N + 1` calls, the
first with `base` and the others with nil, and the last one panics. -/
theorem PollImmediate_late_success_panics (w : World) (base : Config) (calls : List Call)
    (N : Nat) (d : APIExport) (hN : 1 ≤ N) (hbudget : N ≤ w.ticks + 1)
    (hfail : ∀ i, i < N →
      ∃ err, (w.apiExportClient i).Get "gitopsrvc-backend-shared" = .error err)
    (hget : (w.apiExportClient N).Get "gitopsrvc-backend-shared" = .ok d)
    (hvw : d.Status.VirtualWorkspaces ≠ []) :
    (PollImmediate w.ticks (condition w)
        { restConfig := some base, calls := calls, callsAtTimeout := none }).1.calls
      = calls ++ .restConfigForAPIExport (some base)
          :: List.replicate N (.restConfigForAPIExport none)
    ∧ (PollImmediate w.ticks (condition w)
        { restConfig := some base, calls := calls, callsAtTimeout := none }).2
      = .error .nilPointerDereference := by
  obtain ⟨M, rfl⟩ : ∃ M, N = M + 1 := ⟨N - 1, by omega⟩
  obtain ⟨e0, he0⟩ := hfail 0 (by omega)
  have hc0 := condition_of_error w 0
    { restConfig := some base, calls := calls, callsAtTimeout := none }
    (restConfigForAPIExport_get_error (some base) he0)
  have hmid := WaitFor_failures w M w.ticks 1
    (calls ++ [.restConfigForAPIExport (some base)]) none (by omega)
    (fun i _ h2 => by
      obtain ⟨err, herr⟩ := hfail i (by omega)
      exact ⟨none, none, _, restConfigForAPIExport_get_error none herr⟩)
  have hpanic := restConfigForAPIExport_nil_cfg_panics hget hvw
  rw [PollImmediate, hc0]
  simp only [hmid, show 1 + M = M + 1 by omega]
  rcases hleft : w.ticks - M with _ | f
  · have hlast := condition_of_panic w (M + 1)
      { restConfig := none,
        calls := calls ++ [.restConfigForAPIExport (some base)]
          ++ List.replicate M (.restConfigForAPIExport none),
        callsAtTimeout := some (calls ++ [Call.restConfigForAPIExport (some base)]
          ++ List.replicate M (Call.restConfigForAPIExport none)).length }
      hpanic
    rw [WaitFor, hlast]
    simp [List.replicate_succ']
  · have hlast := condition_of_panic w (M + 1)
      { restConfig := none,
        calls := calls ++ [.restConfigForAPIExport (some base)]
          ++ List.replicate M (.restConfigForAPIExport none),
        callsAtTimeout := none }
      hpanic
    rw [WaitFor, hlast]
    simp [List.replicate_succ']

/-- C2 (what the code does when the lookup first fails and later succeeds): if the
setup succeeds with `base`, `Get` fails on attempts `0 .. N-1` with `1 ≤ N ≤ ticks`,
and on attempt `N` it returns a descriptor with at least one virtual endpoint, then
`NewVirtualWorkspaceClient` makes `N + 1` calls to `restConfigForAPIExport`, the
first with `base` and the others with nil, and the last one panics with a nil
dereference; no configuration is produced. -/
theorem NewVirtualWorkspaceClient_late_success_panics (w : World) (base : Config) (N : Nat)
    (d : APIExport) (hsetup : SetupSucceeds w base) (hN : 1 ≤ N) (hbudget : N ≤ w.ticks)
    (hfail : ∀ i, i < N →
      ∃ err, (w.apiExportClient i).Get "gitopsrvc-backend-shared" = .error err)
    (hget : (w.apiExportClient N).Get "gitopsrvc-backend-shared" = .ok d)
    (hvw : d.Status.VirtualWorkspaces ≠ []) :
    NewVirtualWorkspaceClient w
      = (setupCalls base ++ .restConfigForAPIExport (some base)
            :: List.replicate N (.restConfigForAPIExport none),
         .error .nilPointerDereference) := by
  obtain ⟨h1, h2⟩ := PollImmediate_late_success_panics w base (setupCalls base) N d hN
    (by omega) hfail hget hvw
  rw [NewVirtualWorkspaceClient_of_setup hsetup]
  generalize PollImmediate w.ticks (condition w)
    { restConfig := some base, calls := setupCalls base, callsAtTimeout := none } = p at h1 h2
  obtain ⟨v, r⟩ := p
  simp only at h1 h2
  subst h2
  simp only [h1]

/-- C2 at a concrete input: the descriptor is published between the first and the
second attempt, well inside the budget; the second attempt panics. -/
theorem NewVirtualWorkspaceClient_late_success_panics_witness :
    NewVirtualWorkspaceClient (sampleWorld 120 publishedLate)
      = ([.ClusterAwareHTTPClient (some cpBase), .clientNew (some cpBase),
          .restConfigForAPIExport (some cpBase), .restConfigForAPIExport none],
         .error .nilPointerDereference) :=
  NewVirtualWorkspaceClient_late_success_panics (sampleWorld 120 publishedLate) cpBase 1
    twoEndpoints ⟨rfl, rfl, rfl, rfl, rfl, rfl, rfl, rfl⟩ (by decide) (by decide)
    (fun i hi => by
      obtain rfl : i = 0 := by omega
      exact ⟨notFound "gitopsrvc-backend-shared", rfl⟩)
    rfl (by decide)

/-- C3 as stated fails: in a world where the descriptor is never published, so
that every attempt inside the budget fails, the poll started by
`NewVirtualWorkspaceClient` with 120 poller ticks still makes a call to
`restConfigForAPIExport` after its timeout fired. -/
theorem NewVirtualWorkspaceClient_calls_after_timeout :
    callsAfterTimeout
        (PollImmediate 120 (condition (sampleWorld 120 neverPublished))
          { restConfig := some cpBase, calls := setupCalls cpBase,
            callsAtTimeout := none }).1
      = [.restConfigForAPIExport none]
    ∧ callsAfterTimeout
        (PollImmediate 120 (condition (sampleWorld 120 neverPublished))
          { restConfig := some cpBase, calls := setupCalls cpBase,
            callsAtTimeout := none }).1
      ≠ [] := by
  have h : PollImmediate 120 (condition (sampleWorld 120 neverPublished))
      { restConfig := some cpBase, calls := setupCalls cpBase, callsAtTimeout := none }
      = _ :=
    PollImmediate_all_fail (sampleWorld 120 neverPublished)
      { restConfig := some cpBase, calls := setupCalls cpBase, callsAtTimeout := none }
      (fun _ _ => ⟨none, none, _, rfl⟩)
  have hdrop := drop_calls_before_last (setupCalls cpBase)
    (.restConfigForAPIExport (some cpBase)) (.restConfigForAPIExport none) 120
  rw [h]
  simp only [callsAfterTimeout]
  exact ⟨hdrop, fun hnil => List.cons_ne_nil _ _ (hdrop.symm.trans hnil)⟩

/-- C3, amended: if the setup succeeds with `base` and every attempt of the poll
returns an error (attempts `0 .. ticks`, made inside the budget, and attempt
`ticks + 1`, which `wait.PollImmediate` makes when its timeout has closed the
poller's channel), then the poll ends with `ErrWaitTimeout`, and
`NewVirtualWorkspaceClient` returns a nil client with the error
`virtual workspace URL never became available`; the calls made are the two of the
setup and then `ticks + 2` calls to `restConfigForAPIExport`; exactly one of these,
the last, is made after the timeout fired, and no client is built after it. -/
theorem NewVirtualWorkspaceClient_timeout (w : World) (base : Config)
    (hsetup : SetupSucceeds w base)
    (hfail : ∀ i, i ≤ w.ticks + 1 → ∃ cfg r e,
      restConfigForAPIExport cfg (w.apiExportClient i) "gitopsrvc-backend-shared"
        = .ok (r, some e)) :
    (PollImmediate w.ticks (condition w)
        { restConfig := some base, calls := setupCalls base, callsAtTimeout := none }).2
      = .ok (some .ErrWaitTimeout)
    ∧ NewVirtualWorkspaceClient w
      = ([.ClusterAwareHTTPClient (some base), .clientNew (some base),
          .restConfigForAPIExport (some base)]
            ++ List.replicate (w.ticks + 1) (.restConfigForAPIExport none),
         .ok (none, some (.errorf "virtual workspace URL never became available" [])))
    ∧ callsAfterTimeout
        (PollImmediate w.ticks (condition w)
          { restConfig := some base, calls := setupCalls base, callsAtTimeout := none }).1
      = [.restConfigForAPIExport none] := by
  have hpoll := PollImmediate_all_fail w
    { restConfig := some base, calls := setupCalls base, callsAtTimeout := none } hfail
  refine ⟨by rw [hpoll], ?_, ?_⟩
  · rw [NewVirtualWorkspaceClient_of_setup hsetup, hpoll]
    simp [setupCalls]
  · rw [hpoll]
    simp only [callsAfterTimeout]
    exact drop_calls_before_last (setupCalls base) _ _ w.ticks

/-- Witness for C3: the descriptor is never published and the poller delivers 120
ticks before its timeout. -/
theorem NewVirtualWorkspaceClient_timeout_witness :
    NewVirtualWorkspaceClient (sampleWorld 120 neverPublished)
      = ([.ClusterAwareHTTPClient (some cpBase), .clientNew (some cpBase),
          .restConfigForAPIExport (some cpBase)]
            ++ List.replicate 121 (.restConfigForAPIExport none),
         .ok (none, some (.errorf "virtual workspace URL never became available" []))) :=
  (NewVirtualWorkspaceClient_timeout (sampleWorld 120 neverPublished) cpBase
    ⟨rfl, rfl, rfl, rfl, rfl, rfl, rfl, rfl⟩
    (fun _ _ => ⟨none, none, _, rfl⟩)).2.1

/-- C4: the poll closure answers `(false, nil)` when the attempt returned an error,
`(true, nil)` when it returned a nil error, and never answers with a non-nil error;
the errors an attempt can return are the wrapped `Get` failure, the wrapped `List`
failure, "no APIExport found", "more than one APIExport found" and
"status.virtualWorkspaces is empty"; and whenever the poll returns an error, that
error is `ErrWaitTimeout` and all `ticks + 2` attempts were made (the immediate
one, the `ticks` inside the budget and the one on the closed channel), so no
attempt error ended the poll early. -/
theorem condition_uniform_retry (w : World) (attempt : Nat) (v : Vars) :
    (condition w attempt v).2
        = (match restConfigForAPIExport v.restConfig (w.apiExportClient attempt)
              "gitopsrvc-backend-shared" with
            | .error p => .error p
            | .ok (_, some _) => .ok (false, none)
            | .ok (_, none) => .ok (true, none))
    ∧ (∀ done err, (condition w attempt v).2 = .ok (done, err) → err = none)
    ∧ (∀ (cfg : Option Config) (client : Client) (name : String) (r : Option Config)
        (e : Error), restConfigForAPIExport cfg client name = .ok (r, some e) →
          (∃ err, client.Get name = .error err
              ∧ e = .wrapf "error getting APIExport %q: %w" [name] err)
          ∨ (∃ err, client.List = .error err
              ∧ e = .wrapf "error listing APIExports: %w" [] err)
          ∨ e = .errorf "no APIExport found" []
          ∨ e = .errorf "more than one APIExport found" []
          ∨ e = .errorf "APIExport %q status.virtualWorkspaces is empty" [name])
    ∧ (∀ (ticks : Nat) (v0 : Vars) (err : Error),
        (PollImmediate ticks (condition w) v0).2 = .ok (some err) →
          err = .ErrWaitTimeout
          ∧ (PollImmediate ticks (condition w) v0).1.calls.length
              = v0.calls.length + (ticks + 2)) := by
  refine ⟨?_, ?_, ?_, ?_⟩
  · cases hres : restConfigForAPIExport v.restConfig (w.apiExportClient attempt)
        "gitopsrvc-backend-shared" with
    | error p => simp [condition_of_panic w attempt v hres]
    | ok res =>
      obtain ⟨r, e⟩ := res
      cases e with
      | none => simp [condition_of_success w attempt v hres]
      | some e => simp [condition_of_error w attempt v hres]
  · intro done err h
    cases hres : restConfigForAPIExport v.restConfig (w.apiExportClient attempt)
        "gitopsrvc-backend-shared" with
    | error p => simp [condition_of_panic w attempt v hres] at h
    | ok res =>
      obtain ⟨r, e⟩ := res
      cases e with
      | none =>
        simp only [condition_of_success w attempt v hres, Except.ok.injEq, Prod.mk.injEq] at h
        exact h.2.symm
      | some e =>
        simp only [condition_of_error w attempt v hres, Except.ok.injEq, Prod.mk.injEq] at h
        exact h.2.symm
  · intro cfg client name r e h
    exact restConfigForAPIExport_error_forms h
  · intro ticks v0 err h
    exact PollImmediate_error_is_timeout w ticks v0 err h

/-- C10: `restConfigForAPIExport` returns a nil configuration whenever it returns an
error; after an attempt that returns, the closure has stored the attempt's first
result in `restConfig`, which is therefore non-nil exactly when the attempt returned
a nil error; and of the calls a poll makes, only the first passes the configuration
the poll started with, every later one passes nil. -/
theorem restConfig_nonnil_iff_attempt_succeeded (w : World) (attempt : Nat) (v : Vars) :
    (∀ (cfg : Option Config) (client : Client) (name : String) (r : Option Config)
        (e : Error), restConfigForAPIExport cfg client name = .ok (r, some e) → r = none)
    ∧ (∀ (r : Option Config) (err : Option Error),
        restConfigForAPIExport v.restConfig (w.apiExportClient attempt)
            "gitopsrvc-backend-shared" = .ok (r, err) →
          (condition w attempt v).1.restConfig = r
          ∧ ((condition w attempt v).1.restConfig.isSome = true ↔ err = none))
    ∧ (∀ (ticks : Nat) (v0 : Vars), ∃ k, k ≤ ticks + 1 ∧
        (PollImmediate ticks (condition w) v0).1.calls
          = v0.calls ++ .restConfigForAPIExport v0.restConfig
              :: List.replicate k (.restConfigForAPIExport none)) := by
  refine ⟨?_, ?_, ?_⟩
  · intro cfg client name r e h
    have h' := restConfigForAPIExport_error_any_cfg h cfg
    rw [h] at h'
    simpa using h'
  · intro r err h
    cases err with
    | none =>
      have hs := restConfigForAPIExport_success_isSome h
      simp [condition_of_success w attempt v h, hs]
    | some e =>
      have h' := restConfigForAPIExport_error_any_cfg h v.restConfig
      rw [h] at h'
      have hr : r = none := by simpa using h'
      simp [condition_of_error w attempt v h, hr]
  · intro ticks v0
    exact PollImmediate_later_calls_nil w ticks v0

end KcpExample
